import Mathlib

/-!
Shallow embedding of the `gpu_manager` crate (src/lib.rs): the `GpuManager`
constructors `simple` and `with_window`, the surface-configuration
computation `create_surface_configuration` with its inner
`get_surface_format`, and the descriptors passed to the adapter and device
requests.  External wgpu/winit handles (Device, Queue, Surface, Window) are
opaque identifiers; capability sets and configurations are translated field
by field from the source.
-/

/-- wgpu `TextureFormat`: the two formats the code names, plus the remaining
variants collapsed into an indexed `other`. -/
inductive TextureFormat where
  | Rgba8Unorm : TextureFormat
  | Bgra8Unorm : TextureFormat
  | other : Nat → TextureFormat
deriving DecidableEq, Repr

/-- wgpu `PresentMode`, abstract (the code never inspects it). -/
abbrev PresentMode := Nat

/-- wgpu `CompositeAlphaMode`, abstract (the code never inspects it). -/
abbrev CompositeAlphaMode := Nat

namespace TextureUsages

/-- `TextureUsages::COPY_DST` bit. -/
def COPY_DST : Nat := 2

/-- `TextureUsages::RENDER_ATTACHMENT` bit. -/
def RENDER_ATTACHMENT : Nat := 16

/-- bitflags `contains`: all bits of `flag` are set in `self`. -/
def contains (self flag : Nat) : Bool := self.land flag == flag

end TextureUsages

/-- wgpu `SurfaceCapabilities`: the fields `create_surface_configuration`
reads. `usages` is a `TextureUsages` bitmask. -/
structure SurfaceCapabilities where
  formats : List TextureFormat
  present_modes : List PresentMode
  alpha_modes : List CompositeAlphaMode
  usages : Nat
deriving DecidableEq, Repr

/-- wgpu `SurfaceConfiguration`, fields as assembled at lines 182–191. -/
structure SurfaceConfiguration where
  usage : Nat
  format : TextureFormat
  width : Nat
  height : Nat
  present_mode : PresentMode
  desired_maximum_frame_latency : Nat
  alpha_mode : CompositeAlphaMode
  view_formats : List TextureFormat
deriving DecidableEq, Repr

/-- `winit` window inner size (`window.inner_size()`), in pixels. -/
structure WindowSize where
  width : Nat
  height : Nat
deriving DecidableEq, Repr

/-- The fixed priority list of `get_surface_format` (lines 158–161). -/
def priority_formats : List TextureFormat :=
  [TextureFormat.Rgba8Unorm, TextureFormat.Bgra8Unorm]

/-- The `for format in priority_formats` loop body of `get_surface_format`:
return the first element of the priority list contained in
`available_formats`, else the bail error. -/
def find_priority_format (available_formats : List TextureFormat) :
    List TextureFormat → Except String TextureFormat
  | [] => Except.error "Couldn\x27t get supported surface format, exiting."
  | format :: rest =>
      if available_formats.contains format then Except.ok format
      else find_priority_format available_formats rest

/-- `get_surface_format` (lines 157–168): first of
`[Rgba8Unorm, Bgra8Unorm]` present in `available_formats`, else an error. -/
def get_surface_format (available_formats : List TextureFormat) :
    Except String TextureFormat :=
  find_priority_format available_formats priority_formats

/-- The compatibility-mode warning text of line 175. -/
def compat_warning : String :=
  "Surface can\x27t be copy destination. Using compatibility mode."

/-- `create_surface_configuration` (lines 152–192), as a function of the
surface capability set and the window inner size read at configuration
time.  First component: `none` models the out-of-bounds panic of
`present_modes[0]` / `alpha_modes[0]`, `some (Except.error e)` the `bail!`
propagated by `?`, `some (Except.ok cfg)` success.  Second component: the
`log::warn!` messages emitted (the warning fires before any bail/panic,
exactly as in the source where `usage` is computed first). -/
def create_surface_configuration (caps : SurfaceCapabilities)
    (size : WindowSize) :
    Option (Except String SurfaceConfiguration) × List String :=
  let copy_dst := TextureUsages.contains caps.usages TextureUsages.COPY_DST
  let usage :=
    if copy_dst then
      TextureUsages.RENDER_ATTACHMENT ||| TextureUsages.COPY_DST
    else
      TextureUsages.RENDER_ATTACHMENT
  let warnings := if copy_dst then [] else [compat_warning]
  match get_surface_format caps.formats with
  | Except.error e => (some (Except.error e), warnings)
  | Except.ok surface_format =>
      match caps.present_modes[0]?, caps.alpha_modes[0]? with
      | some pm, some am =>
          (some (Except.ok
            { usage := usage
              format := surface_format
              width := size.width
              height := size.height
              present_mode := pm
              desired_maximum_frame_latency := 2
              alpha_mode := am
              view_formats := [] }), warnings)
      | _, _ => (none, warnings)

/-- Opaque wgpu `Device` handle. -/
structure Device where
  id : Nat
deriving DecidableEq, Repr

/-- Opaque wgpu `Queue` handle. -/
structure Queue where
  id : Nat
deriving DecidableEq, Repr

/-- Opaque winit `Window` handle (the `Arc<Window>` of the source). -/
structure Window where
  id : Nat
deriving DecidableEq, Repr

/-- Opaque wgpu `Surface` handle. -/
structure Surface where
  id : Nat
deriving DecidableEq, Repr

/-- `WindowManager` (lines 196–200): window, surface and configuration. -/
structure WindowManager where
  window : Window
  surface : Surface
  config : SurfaceConfiguration
deriving DecidableEq, Repr

/-- `GpuManager<SurfaceManager>` (lines 15–19): the payload type selects
headless (`Unit`, for Rust `()`) or windowed (`WindowManager`) mode. -/
structure GpuManager (SurfaceManager : Type) where
  surface_manager : SurfaceManager
  device : Device
  queue : Queue
deriving DecidableEq

/-- wgpu `PowerPreference` (field of `RequestAdapterOptions`). -/
inductive PowerPreference where
  | None : PowerPreference
  | LowPower : PowerPreference
  | HighPerformance : PowerPreference
deriving DecidableEq, Repr

/-- wgpu `RequestAdapterOptions`, generic over the surface handle type;
`Default::default()` supplies the default value of every field. -/
structure RequestAdapterOptions (S : Type) where
  power_preference : PowerPreference := PowerPreference.None
  force_fallback_adapter : Bool := false
  compatible_surface : Option S := none
deriving DecidableEq, Repr

/-- wgpu `Features` bitmask; `Features::empty()` is the zero mask. -/
def Features.empty : Nat := 0

/-- wgpu `Limits`, abstracted to representative fields with the wgpu default
values (`Default::default()`); the code never overrides or reads them. -/
structure Limits where
  max_texture_dimension_2d : Nat := 8192
  max_bind_groups : Nat := 4
  max_buffer_size : Nat := 268435456
deriving DecidableEq, Repr

/-- wgpu `DeviceDescriptor`; `Default::default()` supplies every field. -/
structure DeviceDescriptor where
  label : Option String := none
  required_features : Nat := Features.empty
  required_limits : Limits := {}
deriving DecidableEq, Repr

/-- The default `DeviceDescriptor` (`DeviceDescriptor::default()`). -/
def DeviceDescriptor.default : DeviceDescriptor := {}

/-- The default adapter options (`RequestAdapterOptionsBase::default()`). -/
def RequestAdapterOptions.default (S : Type) : RequestAdapterOptions S := {}

/-- Adapter options passed by `simple` (line 61):
`RequestAdapterOptionsBase::default()`. -/
def simple_adapter_options : RequestAdapterOptions Surface := {}

/-- Device descriptor passed by `simple` (lines 65–68):
`required_features: Features::empty(), ..Default::default()`. -/
def simple_device_descriptor : DeviceDescriptor :=
  { DeviceDescriptor.default with required_features := Features.empty }

/-- Adapter options passed by `with_window` (lines 97–100):
`compatible_surface: Some(&surface), ..Default::default()`. -/
def with_window_adapter_options (surface : Surface) :
    RequestAdapterOptions Surface :=
  { RequestAdapterOptions.default Surface with
      compatible_surface := some surface }

/-- Device descriptor passed by `with_window` (lines 104–107): same
expression as in `simple`. -/
def with_window_device_descriptor : DeviceDescriptor :=
  { DeviceDescriptor.default with required_features := Features.empty }

/-- The value `simple` returns on success (lines 71–75): unit payload. -/
def simple_result (device : Device) (queue : Queue) : GpuManager Unit :=
  { surface_manager := (), device := device, queue := queue }

/-- Lines 110–112 of `with_window`: compute the configuration (the `?`
propagates its error), then configure the surface.  Second component lists
the configurations applied by `surface.configure`: empty on the error path,
exactly the computed one on success; `none` models the indexing panic. -/
def with_window_surface_setup (caps : SurfaceCapabilities)
    (size : WindowSize) :
    Option (Except String SurfaceConfiguration × List SurfaceConfiguration) :=
  match (create_surface_configuration caps size).1 with
  | none => none
  | some (Except.error e) => some (Except.error e, [])
  | some (Except.ok config) => some (Except.ok config, [config])

/-- The value `with_window` returns (lines 110–122), as a function of the
surface capability set, window inner size, and the handles produced by the
earlier steps: the configuration computation decides error/panic/success,
and on success the payload bundles window, surface and configuration. -/
def with_window_result (window : Window) (surface : Surface)
    (caps : SurfaceCapabilities) (size : WindowSize)
    (device : Device) (queue : Queue) :
    Option (Except String (GpuManager WindowManager)) :=
  match (create_surface_configuration caps size).1 with
  | none => none
  | some (Except.error e) => some (Except.error e)
  | some (Except.ok config) =>
      some (Except.ok
        { surface_manager :=
            { window := window, surface := surface, config := config }
          device := device
          queue := queue })

/-- Closed-form characterization of `get_surface_format`: first check
`Rgba8Unorm`, then `Bgra8Unorm`, else the bail error. -/
theorem get_surface_format_spec (fmts : List TextureFormat) :
    get_surface_format fmts =
      (if fmts.contains TextureFormat.Rgba8Unorm then
        Except.ok TextureFormat.Rgba8Unorm
      else if fmts.contains TextureFormat.Bgra8Unorm then
        Except.ok TextureFormat.Bgra8Unorm
      else
        Except.error "Couldn\x27t get supported surface format, exiting.") := by
  simp only [get_surface_format, priority_formats, find_priority_format]

/-- C1: `get_surface_format` walks the fixed priority list
`[Rgba8Unorm, Bgra8Unorm]` in order and returns the first format contained
in the advertised list: whenever `Rgba8Unorm` is advertised the selection is
`Rgba8Unorm`, and when `Rgba8Unorm` is absent but `Bgra8Unorm` advertised
the selection is `Bgra8Unorm`. -/
theorem format_priority_selection (fmts : List TextureFormat) :
    (fmts.contains TextureFormat.Rgba8Unorm = true →
       get_surface_format fmts = Except.ok TextureFormat.Rgba8Unorm) ∧
    (fmts.contains TextureFormat.Rgba8Unorm = false →
       fmts.contains TextureFormat.Bgra8Unorm = true →
       get_surface_format fmts = Except.ok TextureFormat.Bgra8Unorm) := by
  constructor
  · intro h
    rw [get_surface_format_spec, h]
    simp
  · intro h1 h2
    rw [get_surface_format_spec, h1, h2]
    simp

/-- Witness for C1 at concrete format lists: `Rgba8Unorm` wins even when
listed last, and `Bgra8Unorm` is chosen when it is the only match. -/
theorem format_priority_selection_witness :
    get_surface_format [TextureFormat.Bgra8Unorm, TextureFormat.Rgba8Unorm] =
      Except.ok TextureFormat.Rgba8Unorm ∧
    get_surface_format [TextureFormat.other 7, TextureFormat.Bgra8Unorm] =
      Except.ok TextureFormat.Bgra8Unorm :=
  ⟨(format_priority_selection _).1 (by decide),
   (format_priority_selection _).2 (by decide) (by decide)⟩

/-- C2: when neither `Rgba8Unorm` nor `Bgra8Unorm` is advertised, windowed
construction fails with the unsupported-surface-format error, and
`surface.configure` is never applied (the configure list is empty). -/
theorem unsupported_format_fails_atomically (caps : SurfaceCapabilities)
    (size : WindowSize) (window : Window) (surface : Surface)
    (device : Device) (queue : Queue)
    (h1 : caps.formats.contains TextureFormat.Rgba8Unorm = false)
    (h2 : caps.formats.contains TextureFormat.Bgra8Unorm = false) :
    with_window_surface_setup caps size =
      some (Except.error
        "Couldn\x27t get supported surface format, exiting.", []) ∧
    with_window_result window surface caps size device queue =
      some (Except.error
        "Couldn\x27t get supported surface format, exiting.") := by
  have hf : get_surface_format caps.formats =
      Except.error "Couldn\x27t get supported surface format, exiting." := by
    rw [get_surface_format_spec, h1, h2]
    simp
  constructor <;>
    simp [with_window_surface_setup, with_window_result,
      create_surface_configuration, hf]

/-- Witness for C2 at a concrete capability set advertising only an
unsupported format. -/
theorem unsupported_format_fails_atomically_witness :
    with_window_surface_setup ⟨[TextureFormat.other 3], [1], [2], 18⟩
        ⟨640, 480⟩ =
      some (Except.error
        "Couldn\x27t get supported surface format, exiting.", []) ∧
    with_window_result ⟨1⟩ ⟨2⟩ ⟨[TextureFormat.other 3], [1], [2], 18⟩
        ⟨640, 480⟩ ⟨3⟩ ⟨4⟩ =
      some (Except.error
        "Couldn\x27t get supported surface format, exiting.") :=
  unsupported_format_fails_atomically ⟨[TextureFormat.other 3], [1], [2], 18⟩
    ⟨640, 480⟩ ⟨1⟩ ⟨2⟩ ⟨3⟩ ⟨4⟩ (by decide) (by decide)

/-- C9: the surface-configuration computation is a deterministic pure
function of the capability set and the window inner size: equal inputs give
equal results, configuration, error, and warnings alike. -/
theorem surface_negotiation_deterministic (caps1 caps2 : SurfaceCapabilities)
    (size1 size2 : WindowSize) (hc : caps1 = caps2) (hs : size1 = size2) :
    create_surface_configuration caps1 size1 =
      create_surface_configuration caps2 size2 := by
  subst hc
  subst hs
  rfl

/-- Witness for C9 at a concrete capability set and size. -/
theorem surface_negotiation_deterministic_witness :
    create_surface_configuration ⟨[TextureFormat.Rgba8Unorm], [1], [2], 18⟩
        ⟨640, 480⟩ =
      create_surface_configuration ⟨[TextureFormat.Rgba8Unorm], [1], [2], 18⟩
        ⟨640, 480⟩ :=
  surface_negotiation_deterministic _ _ _ _ rfl rfl

/-- Characterization of a successful run of `create_surface_configuration`:
success forces both capability lists to have a head, the format to come
from `get_surface_format`, and pins every field of the configuration and
the emitted warnings. -/
theorem create_surface_configuration_ok (caps : SurfaceCapabilities)
    (size : WindowSize) (cfg : SurfaceConfiguration)
    (h : (create_surface_configuration caps size).1 =
      some (Except.ok cfg)) :
    ∃ pm am fmt, caps.present_modes[0]? = some pm ∧
      caps.alpha_modes[0]? = some am ∧
      get_surface_format caps.formats = Except.ok fmt ∧
      cfg = { usage :=
                if TextureUsages.contains caps.usages TextureUsages.COPY_DST
                then TextureUsages.RENDER_ATTACHMENT ||| TextureUsages.COPY_DST
                else TextureUsages.RENDER_ATTACHMENT
              format := fmt
              width := size.width
              height := size.height
              present_mode := pm
              desired_maximum_frame_latency := 2
              alpha_mode := am
              view_formats := [] } ∧
      (create_surface_configuration caps size).2 =
        (if TextureUsages.contains caps.usages TextureUsages.COPY_DST
         then ([] : List String) else [compat_warning]) := by
  rcases hgf : get_surface_format caps.formats with e | fmt
  · simp [create_surface_configuration, hgf] at h
  · rcases hpm : caps.present_modes[0]? with _ | pm
    · simp [create_surface_configuration, hgf, hpm] at h
    · rcases ham : caps.alpha_modes[0]? with _ | am
      · simp [create_surface_configuration, hgf, hpm, ham] at h
      · simp only [create_surface_configuration, hgf, hpm, ham,
          Option.some.injEq, Except.ok.injEq] at h
        refine ⟨pm, am, fmt, rfl, rfl, rfl, h.symm, ?_⟩
        simp [create_surface_configuration, hgf, hpm, ham]

/-- C3: in a successful configuration, the usage is
`RENDER_ATTACHMENT ||| COPY_DST` exactly when the capability set advertises
`COPY_DST` and plain `RENDER_ATTACHMENT` (with no `COPY_DST` bit) otherwise,
and the compatibility-mode warning is emitted exactly in the latter case. -/
theorem copy_dst_usage_selection (caps : SurfaceCapabilities)
    (size : WindowSize) (cfg : SurfaceConfiguration)
    (h : (create_surface_configuration caps size).1 =
      some (Except.ok cfg)) :
    cfg.usage =
      (if TextureUsages.contains caps.usages TextureUsages.COPY_DST
       then TextureUsages.RENDER_ATTACHMENT ||| TextureUsages.COPY_DST
       else TextureUsages.RENDER_ATTACHMENT) ∧
    TextureUsages.contains cfg.usage TextureUsages.COPY_DST =
      TextureUsages.contains caps.usages TextureUsages.COPY_DST ∧
    (create_surface_configuration caps size).2 =
      (if TextureUsages.contains caps.usages TextureUsages.COPY_DST
       then ([] : List String) else [compat_warning]) := by
  obtain ⟨pm, am, fmt, hpm, ham, hgf, hcfg, hwarn⟩ :=
    create_surface_configuration_ok caps size cfg h
  subst hcfg
  refine ⟨rfl, ?_, hwarn⟩
  cases hc : TextureUsages.contains caps.usages TextureUsages.COPY_DST <;>
    simp [hc] <;> decide

/-- Witness for C3 at a capability set without `COPY_DST` (usages = 16). -/
theorem copy_dst_usage_selection_witness :
    (⟨16, TextureFormat.Bgra8Unorm, 640, 480, 1, 2, 2, []⟩ :
        SurfaceConfiguration).usage =
      (if TextureUsages.contains 16 TextureUsages.COPY_DST
       then TextureUsages.RENDER_ATTACHMENT ||| TextureUsages.COPY_DST
       else TextureUsages.RENDER_ATTACHMENT) ∧
    TextureUsages.contains
        (⟨16, TextureFormat.Bgra8Unorm, 640, 480, 1, 2, 2, []⟩ :
          SurfaceConfiguration).usage TextureUsages.COPY_DST =
      TextureUsages.contains 16 TextureUsages.COPY_DST ∧
    (create_surface_configuration
        ⟨[TextureFormat.Bgra8Unorm], [1], [2], 16⟩ ⟨640, 480⟩).2 =
      (if TextureUsages.contains 16 TextureUsages.COPY_DST
       then ([] : List String) else [compat_warning]) :=
  copy_dst_usage_selection ⟨[TextureFormat.Bgra8Unorm], [1], [2], 16⟩
    ⟨640, 480⟩ ⟨16, TextureFormat.Bgra8Unorm, 640, 480, 1, 2, 2, []⟩ rfl

/-- C4: in a successful configuration, present mode and alpha mode are the
elements at index 0 of the advertised lists, verbatim. -/
theorem present_alpha_mode_index_zero (caps : SurfaceCapabilities)
    (size : WindowSize) (cfg : SurfaceConfiguration)
    (h : (create_surface_configuration caps size).1 =
      some (Except.ok cfg)) :
    caps.present_modes[0]? = some cfg.present_mode ∧
    caps.alpha_modes[0]? = some cfg.alpha_mode := by
  obtain ⟨pm, am, fmt, hpm, ham, hgf, hcfg, hwarn⟩ :=
    create_surface_configuration_ok caps size cfg h
  subst hcfg
  exact ⟨hpm, ham⟩

/-- Witness for C4 with multi-element present and alpha lists. -/
theorem present_alpha_mode_index_zero_witness :
    ([5, 1] : List PresentMode)[0]? =
      some (⟨18, TextureFormat.Rgba8Unorm, 10, 20, 5, 2, 7, []⟩ :
        SurfaceConfiguration).present_mode ∧
    ([7, 2] : List CompositeAlphaMode)[0]? =
      some (⟨18, TextureFormat.Rgba8Unorm, 10, 20, 5, 2, 7, []⟩ :
        SurfaceConfiguration).alpha_mode :=
  present_alpha_mode_index_zero
    ⟨[TextureFormat.Rgba8Unorm], [5, 1], [7, 2], 18⟩ ⟨10, 20⟩
    ⟨18, TextureFormat.Rgba8Unorm, 10, 20, 5, 2, 7, []⟩ rfl

/-- C5: in a successful configuration, width and height equal the window
inner size read at configuration time, the desired maximum frame latency is
the constant 2, and the view-format list is empty. -/
theorem size_latency_view_formats (caps : SurfaceCapabilities)
    (size : WindowSize) (cfg : SurfaceConfiguration)
    (h : (create_surface_configuration caps size).1 =
      some (Except.ok cfg)) :
    cfg.width = size.width ∧ cfg.height = size.height ∧
    cfg.desired_maximum_frame_latency = 2 ∧ cfg.view_formats = [] := by
  obtain ⟨pm, am, fmt, hpm, ham, hgf, hcfg, hwarn⟩ :=
    create_surface_configuration_ok caps size cfg h
  subst hcfg
  exact ⟨rfl, rfl, rfl, rfl⟩

/-- Witness for C5 at a concrete capability set and an 800 by 600 size. -/
theorem size_latency_view_formats_witness :
    (⟨18, TextureFormat.Rgba8Unorm, 800, 600, 0, 2, 0, []⟩ :
        SurfaceConfiguration).width = (⟨800, 600⟩ : WindowSize).width ∧
    (⟨18, TextureFormat.Rgba8Unorm, 800, 600, 0, 2, 0, []⟩ :
        SurfaceConfiguration).height = (⟨800, 600⟩ : WindowSize).height ∧
    (⟨18, TextureFormat.Rgba8Unorm, 800, 600, 0, 2, 0, []⟩ :
        SurfaceConfiguration).desired_maximum_frame_latency = 2 ∧
    (⟨18, TextureFormat.Rgba8Unorm, 800, 600, 0, 2, 0, []⟩ :
        SurfaceConfiguration).view_formats = [] :=
  size_latency_view_formats ⟨[TextureFormat.Rgba8Unorm], [0], [0], 2⟩
    ⟨800, 600⟩ ⟨18, TextureFormat.Rgba8Unorm, 800, 600, 0, 2, 0, []⟩ rfl

/-- C10: the configuration computation indexes both mode lists at 0 without
a guard: with non-empty present-mode and alpha-mode lists it never panics,
but when a supported format exists and either list is empty it ends in the
out-of-bounds panic (`none`), not in an error value. -/
theorem index_zero_unguarded :
    (∀ caps size, caps.present_modes ≠ [] → caps.alpha_modes ≠ [] →
        (create_surface_configuration caps size).1 ≠ none) ∧
    (∀ caps size f, get_surface_format caps.formats = Except.ok f →
        caps.present_modes = [] ∨ caps.alpha_modes = [] →
        (create_surface_configuration caps size).1 = none) := by
  constructor
  · intro caps size hp ha
    rcases hgf : get_surface_format caps.formats with e | fmt
    · simp [create_surface_configuration, hgf]
    · rcases hpm : caps.present_modes with _ | ⟨p, ps⟩
      · exact absurd hpm hp
      · rcases ham : caps.alpha_modes with _ | ⟨a, al⟩
        · exact absurd ham ha
        · simp [create_surface_configuration, hgf, hpm, ham]
  · intro caps size f hgf hemp
    rcases hemp with hp | ha
    · simp [create_surface_configuration, hgf, hp]
    · rcases hpm : caps.present_modes with _ | ⟨p, ps⟩
      · simp [create_surface_configuration, hgf, hpm]
      · simp [create_surface_configuration, hgf, hpm, ha]

/-- Witness for C10: non-empty lists give no panic; an empty present-mode
list with a supported format gives the panic outcome `none`. -/
theorem index_zero_unguarded_witness :
    (create_surface_configuration ⟨[TextureFormat.Rgba8Unorm], [1], [2], 16⟩
        ⟨640, 480⟩).1 ≠ none ∧
    (create_surface_configuration ⟨[TextureFormat.Rgba8Unorm], [], [2], 16⟩
        ⟨640, 480⟩).1 = none :=
  ⟨index_zero_unguarded.1 ⟨[TextureFormat.Rgba8Unorm], [1], [2], 16⟩
      ⟨640, 480⟩ (by decide) (by decide),
   index_zero_unguarded.2 ⟨[TextureFormat.Rgba8Unorm], [], [2], 16⟩
      ⟨640, 480⟩ TextureFormat.Rgba8Unorm rfl (Or.inl rfl)⟩

/-- C6: both constructors pass a device descriptor with an empty
required-feature set and otherwise default fields (default limits), and the
two descriptors are identical. -/
theorem device_descriptor_policy :
    simple_device_descriptor = with_window_device_descriptor ∧
    simple_device_descriptor.required_features = Features.empty ∧
    with_window_device_descriptor.required_features = Features.empty ∧
    simple_device_descriptor.required_limits =
      DeviceDescriptor.default.required_limits ∧
    simple_device_descriptor.label = DeviceDescriptor.default.label :=
  ⟨rfl, rfl, rfl, rfl, rfl⟩

/-- C7: `simple` requests its adapter with the default options and hence no
surface-compatibility constraint, while `with_window` requests its adapter
with `compatible_surface` set to the created surface and every other option
left at its default. -/
theorem adapter_options_policy :
    simple_adapter_options = RequestAdapterOptions.default Surface ∧
    simple_adapter_options.compatible_surface = none ∧
    ∀ surface : Surface,
      (with_window_adapter_options surface).compatible_surface =
        some surface ∧
      (with_window_adapter_options surface).power_preference =
        (RequestAdapterOptions.default Surface).power_preference ∧
      (with_window_adapter_options surface).force_fallback_adapter =
        (RequestAdapterOptions.default Surface).force_fallback_adapter :=
  ⟨rfl, rfl, fun _ => ⟨rfl, rfl, rfl⟩⟩

/-- C8: `simple` always yields the unit surface-manager payload (as does
every headless manager), a successful `with_window` yields a payload
bundling exactly the window, the surface and the computed configuration,
and the two payload types are distinct, so the modes are statically
distinguished and never mixed. -/
theorem mode_exclusivity :
    (∀ device queue, (simple_result device queue).surface_manager = ()) ∧
    (∀ m : GpuManager Unit, m.surface_manager = ()) ∧
    (∀ window surface caps size device queue mgr,
        with_window_result window surface caps size device queue =
          some (Except.ok mgr) →
        mgr.surface_manager.window = window ∧
        mgr.surface_manager.surface = surface ∧
        (create_surface_configuration caps size).1 =
          some (Except.ok mgr.surface_manager.config)) ∧
    Unit ≠ WindowManager := by
  refine ⟨fun _ _ => rfl, fun _ => rfl, ?_, ?_⟩
  · intro window surface caps size device queue mgr h
    unfold with_window_result at h
    rcases hc : (create_surface_configuration caps size).1 with _ | e
    · rw [hc] at h
      simp at h
    · rcases e with e | config
      · rw [hc] at h
        simp at h
      · rw [hc] at h
        simp only [Option.some.injEq, Except.ok.injEq] at h
        subst h
        exact ⟨rfl, rfl, rfl⟩
  · intro hEq
    have hs : Subsingleton WindowManager := by
      rw [← hEq]
      infer_instance
    have h01 := @Subsingleton.elim _ hs
      ⟨⟨0⟩, ⟨0⟩, ⟨0, TextureFormat.Rgba8Unorm, 0, 0, 0, 0, 0, []⟩⟩
      ⟨⟨1⟩, ⟨0⟩, ⟨0, TextureFormat.Rgba8Unorm, 0, 0, 0, 0, 0, []⟩⟩
    exact absurd h01 (by decide)

/-- Witness for C8: the headless payload of a concrete `simple` result, and
the fully populated payload of a concrete successful `with_window` run. -/
theorem mode_exclusivity_witness :
    (simple_result ⟨0⟩ ⟨0⟩).surface_manager = () ∧
    ((⟨⟨⟨1⟩, ⟨2⟩, ⟨18, TextureFormat.Rgba8Unorm, 640, 480, 1, 2, 2, []⟩⟩,
        ⟨3⟩, ⟨4⟩⟩ : GpuManager WindowManager).surface_manager.window = ⟨1⟩ ∧
      (⟨⟨⟨1⟩, ⟨2⟩, ⟨18, TextureFormat.Rgba8Unorm, 640, 480, 1, 2, 2, []⟩⟩,
        ⟨3⟩, ⟨4⟩⟩ : GpuManager WindowManager).surface_manager.surface =
        ⟨2⟩ ∧
      (create_surface_configuration
          ⟨[TextureFormat.Rgba8Unorm], [1], [2], 18⟩ ⟨640, 480⟩).1 =
        some (Except.ok
          ((⟨⟨⟨1⟩, ⟨2⟩, ⟨18, TextureFormat.Rgba8Unorm, 640, 480, 1, 2, 2,
            []⟩⟩, ⟨3⟩, ⟨4⟩⟩ :
              GpuManager WindowManager).surface_manager.config))) :=
  ⟨mode_exclusivity.1 ⟨0⟩ ⟨0⟩,
   mode_exclusivity.2.2.1 ⟨1⟩ ⟨2⟩
     ⟨[TextureFormat.Rgba8Unorm], [1], [2], 18⟩ ⟨640, 480⟩ ⟨3⟩ ⟨4⟩ _ rfl⟩
